import Mathlib

/-!
Verification of the Drone-Survey backend (Python) against its specification.

All Python `float` arithmetic is embedded over `ℚ` (exact field arithmetic);
transcendental helpers (`math.cos`, the haversine distance) are abstracted as
explicit parameters, since no claim depends on their values.  Fallible Python
code is embedded as `Except PyErr`.
-/

namespace DroneSurvey

/-- Python exceptions that the embedded code can raise. -/
inductive PyErr
  | valueError (msg : String)
  | notImplementedError (msg : String)
  | typeError (msg : String)
  | attributeError (msg : String)
deriving Repr, DecidableEq

/-- Python `int(x)` on a float: truncation toward zero. -/
def pyTrunc (q : ℚ) : ℤ :=
  if q < 0 then ⌈q⌉ else ⌊q⌋

/-- Python truthiness of an optional float (None and 0.0 are falsy). -/
def pyTruthy : Option ℚ → Bool
  | none => false
  | some q => q != 0

/-- Round half to even at integer precision (Python `round` semantics over ℚ). -/
def roundHalfEven (q : ℚ) : ℤ :=
  let f := ⌊q⌋
  let frac := q - (f : ℚ)
  if frac < 1/2 then f
  else if frac > 1/2 then f + 1
  else if f % 2 = 0 then f else f + 1

/-- Python `round(x, 1)`. -/
def pyRound1 (q : ℚ) : ℚ := (roundHalfEven (q * 10) : ℚ) / 10

/-- Python `round(x, 2)`. -/
def pyRound2 (q : ℚ) : ℚ := (roundHalfEven (q * 100) : ℚ) / 100

/-! ## Waypoint generation service (`app/services/waypoint_generator.py`) -/

/-- `WaypointData` dataclass (waypoint_generator.py:26-34). -/
structure WaypointData where
  latitude : ℚ
  longitude : ℚ
  altitude : ℚ
  order : ℤ
  action : String
  estimated_time_seconds : Option ℤ
deriving Repr, DecidableEq

/-- A parsed GeoJSON polygon value (the JSON text already decoded; JSON
decoding itself is third-party and outside every claim). `coordinates`
is the list of rings, each a list of `(lon, lat)` pairs. -/
structure GeoJson where
  type : String
  coordinates : List (List (ℚ × ℚ))
deriving Repr, DecidableEq

/-- `WaypointGenerator._calculate_line_spacing` (waypoint_generator.py:397-415). -/
def calculateLineSpacing (altitude_m overlap_percentage : ℚ) : ℚ :=
  let ground_width_m := altitude_m * 1.732
  let overlap_factor := (100 - overlap_percentage) / 100
  let line_spacing_m := ground_width_m * overlap_factor
  max line_spacing_m 10

/-- Renumbering loop of `_add_takeoff_landing` (waypoint_generator.py:453-454):
`waypoint.order = i + 1` walking the survey list from index 0. -/
def renumberFrom (start : ℤ) : List WaypointData → List WaypointData
  | [] => []
  | wp :: rest => { wp with order := start } :: renumberFrom (start + 1) rest

/-- `WaypointGenerator._add_takeoff_landing` (waypoint_generator.py:417-456).
An empty survey list is returned unchanged; otherwise a takeoff waypoint
(order 0, first waypoint's location and altitude) is prepended, a landing
waypoint (altitude 0, order `len(waypoints)+1`) appended, and the survey
waypoints renumbered 1.. in between. -/
def addTakeoffLanding (waypoints : List WaypointData) : List WaypointData :=
  match waypoints with
  | [] => []
  | first :: _ =>
    let takeoff_waypoint : WaypointData :=
      { latitude := first.latitude, longitude := first.longitude,
        altitude := first.altitude, order := 0, action := "takeoff",
        estimated_time_seconds := none }
    let landing_waypoint : WaypointData :=
      { latitude := first.latitude, longitude := first.longitude,
        altitude := 0, order := (waypoints.length : ℤ) + 1, action := "land",
        estimated_time_seconds := none }
    takeoff_waypoint :: renumberFrom 1 waypoints ++ [landing_waypoint]

/-- Per-action dwell seconds added in `_calculate_timing` (waypoint_generator.py:487-492). -/
def actionTime (action : String) : ℚ :=
  if action = "capture" then 2
  else if action = "hover" then 5
  else if action = "land" then 15
  else 0

/-- Loop body of `_calculate_timing` for indices `i ≥ 1`
(waypoint_generator.py:475-494): travel time from the previous waypoint at
speed `speed`, plus the action dwell, accumulated into `total`; the waypoint's
`estimated_time_seconds` is `int(total_time)` after both additions.  `dist`
abstracts `_calculate_distance` (the haversine formula, transcendental). -/
def calcTimingAux (dist : ℚ → ℚ → ℚ → ℚ → ℚ) (speed : ℚ) :
    ℚ → WaypointData → List WaypointData → List WaypointData
  | _, _, [] => []
  | total, prev, wp :: rest =>
    let travel := dist prev.latitude prev.longitude wp.latitude wp.longitude / speed
    let t := total + travel + actionTime wp.action
    let wp' := { wp with estimated_time_seconds := some (pyTrunc t) }
    wp' :: calcTimingAux dist speed t wp' rest

/-- `WaypointGenerator._calculate_timing` (waypoint_generator.py:458-496).
The first waypoint gets time `int(0) = 0`; if it is a takeoff, 10 s are
added to the running total before walking the rest of the list. -/
def calculateTiming (dist : ℚ → ℚ → ℚ → ℚ → ℚ) (speed : ℚ) :
    List WaypointData → List WaypointData
  | [] => []
  | wp0 :: rest =>
    let wp0' := { wp0 with estimated_time_seconds := some 0 }
    let total0 : ℚ := if wp0.action = "takeoff" then 10 else 0
    wp0' :: calcTimingAux dist speed total0 wp0' rest

/-- `_calculate_bounds` (waypoint_generator.py:183-195): `(min_lon, min_lat,
max_lon, max_lat)` over the coordinate list.  The empty list (on which the
source's `min()` would raise, unreachable through every embedded caller)
returns zeros. -/
def calculateBounds (coordinates : List (ℚ × ℚ)) : ℚ × ℚ × ℚ × ℚ :=
  match coordinates with
  | [] => (0, 0, 0, 0)
  | c :: cs =>
    (cs.foldl (fun m p => min m p.1) c.1,
     cs.foldl (fun m p => min m p.2) c.2,
     cs.foldl (fun m p => max m p.1) c.1,
     cs.foldl (fun m p => max m p.2) c.2)

/-- One edge step of the ray-casting loop in `_point_in_polygon_simple`
(waypoint_generator.py:534-544).  Inside the two y-band guards `p1y ≠ p2y`
always holds (`min < y ≤ max` forces distinct endpoint ordinates), which is why
the source may compute `xinters` only under that test; the `p1y = p2y` arm
below is therefore unreachable and mirrors the remaining boolean test without
the (stale) `xinters` disjunct. -/
def pipEdgeStep (x y : ℚ) (inside : Bool) (e : (ℚ × ℚ) × (ℚ × ℚ)) : Bool :=
  let p1 := e.1
  let p2 := e.2
  if y > min p1.2 p2.2 then
    if y ≤ max p1.2 p2.2 then
      if x ≤ max p1.1 p2.1 then
        if p1.2 ≠ p2.2 then
          let xinters := (y - p1.2) * (p2.1 - p1.1) / (p2.2 - p1.2) + p1.1
          if p1.1 = p2.1 ∨ x ≤ xinters then !inside else inside
        else if p1.1 = p2.1 then !inside else inside
      else inside
    else inside
  else inside

/-- `_point_in_polygon_simple` (waypoint_generator.py:521-546): ray casting
over the edges `(coords[i], coords[(i+1) % n])`. -/
def pointInPolygonSimple (x y : ℚ) (polygon_coords : List (ℚ × ℚ)) : Bool :=
  (polygon_coords.zip (polygon_coords.rotate 1)).foldl (pipEdgeStep x y) false

/-- Fuel bound for a Python `while var < hi` / `var ≤ hi` loop stepping by
`step` from `lo`: enough iterations when `step > 0`.  A non-positive step
makes the source loop forever; the model returns no iterations there (no
claim reaches that case). -/
def loopFuel (lo hi step : ℚ) : ℕ :=
  if 0 < step then (⌈(hi - lo) / step⌉).toNat + 1 else 0

/-- A capture waypoint at `(lon, lat)` as built by every pattern generator:
GeoJSON pairs are `[lon, lat]`, so `latitude := coord[1]`,
`longitude := coord[0]` (waypoint_generator.py:264-270 etc.). -/
def mkCaptures (alt : ℚ) (pts : List (ℚ × ℚ)) : List WaypointData :=
  pts.map fun c =>
    { latitude := c.2, longitude := c.1, altitude := alt, order := 0,
      action := "capture", estimated_time_seconds := none }

/-- Inner (longitude) loop of `_generate_crosshatch_simple`
(waypoint_generator.py:325-338): `current_lon` from `minx + lonSp` while
`< maxx`, keeping lattice points that pass the point-in-polygon test. -/
def chSimpleCols (coords : List (ℚ × ℚ)) (alt lonSp maxx lat : ℚ) :
    ℕ → ℚ → ℤ → List WaypointData × ℤ
  | 0, _, order => ([], order)
  | fuel + 1, lon, order =>
    if lon < maxx then
      if pointInPolygonSimple lon lat coords then
        let wp : WaypointData :=
          { latitude := lat, longitude := lon, altitude := alt, order := order,
            action := "capture", estimated_time_seconds := none }
        let rest := chSimpleCols coords alt lonSp maxx lat fuel (lon + lonSp) (order + 1)
        (wp :: rest.1, rest.2)
      else chSimpleCols coords alt lonSp maxx lat fuel (lon + lonSp) order
    else ([], order)

/-- Outer (latitude) loop of `_generate_crosshatch_simple`
(waypoint_generator.py:323-339): `current_lat` from `miny + latSp` while
`< maxy`. -/
def chSimpleRows (coords : List (ℚ × ℚ)) (alt latSp lonSp minx maxx maxy : ℚ)
    (colFuel : ℕ) : ℕ → ℚ → ℤ → List WaypointData × ℤ
  | 0, _, order => ([], order)
  | fuel + 1, lat, order =>
    if lat < maxy then
      let row := chSimpleCols coords alt lonSp maxx lat colFuel (minx + lonSp) order
      let rest := chSimpleRows coords alt latSp lonSp minx maxx maxy colFuel fuel
        (lat + latSp) row.2
      (row.1 ++ rest.1, rest.2)
    else ([], order)

/-- `_generate_crosshatch_simple` (waypoint_generator.py:299-341), the
fallback lattice sweep.  `cosMeanLat` abstracts
`math.cos(math.radians((miny + maxy) / 2))` (transcendental).  The
`cross_lines` parameter of the source is accepted but unused there. -/
def generateCrosshatchSimple (cosMeanLat : ℚ) (coords : List (ℚ × ℚ))
    (bounds : ℚ × ℚ × ℚ × ℚ) (altitude_m line_spacing_m : ℚ) : List WaypointData :=
  let minx := bounds.1
  let miny := bounds.2.1
  let maxx := bounds.2.2.1
  let maxy := bounds.2.2.2
  let lat_spacing_deg := line_spacing_m / 111000
  let lon_spacing_deg := line_spacing_m / (111000 * cosMeanLat)
  (chSimpleRows coords altitude_m lat_spacing_deg lon_spacing_deg minx maxx maxy
    (loopFuel (minx + lon_spacing_deg) maxx lon_spacing_deg)
    (loopFuel (miny + lat_spacing_deg) maxy lat_spacing_deg)
    (miny + lat_spacing_deg) 1).1

/-- Behaviour of the third-party geometry library (excluded from the spec's
scope, §1/§6) on the survey polygon: polygon validity, polygon area, and the
coordinate list yielded by intersecting the polygon with a vertical
(north-south, with sweep direction) or horizontal line — an empty list models
an intersection without a `coords` attribute (waypoint_generator.py:261,284). -/
structure ShapelyOracle where
  isValid : List (ℚ × ℚ) → Bool
  area : List (ℚ × ℚ) → ℚ
  intersectVertical : List (ℚ × ℚ) → ℚ → Bool → List (ℚ × ℚ)
  intersectHorizontal : List (ℚ × ℚ) → ℚ → List (ℚ × ℚ)

/-- North-south sweep of `_generate_crosshatch_shapely`
(waypoint_generator.py:247-274): `current_lon` from `minx` while `≤ maxx`,
direction alternating each line, waypoint orders running on. -/
def chShapelyNS (oracle : ShapelyOracle) (coords : List (ℚ × ℚ))
    (alt lonSp maxx : ℚ) : ℕ → ℚ → Bool → ℤ → List WaypointData × ℤ
  | 0, _, _, order => ([], order)
  | fuel + 1, lon, dirNorth, order =>
    if lon ≤ maxx then
      let row := renumberFrom order (mkCaptures alt (oracle.intersectVertical coords lon dirNorth))
      let rest := chShapelyNS oracle coords alt lonSp maxx fuel (lon + lonSp) (!dirNorth)
        (order + row.length)
      (row ++ rest.1, rest.2)
    else ([], order)

/-- East-west sweep of `_generate_crosshatch_shapely`
(waypoint_generator.py:277-295): `current_lat` from `miny` while `≤ maxy`. -/
def chShapelyEW (oracle : ShapelyOracle) (coords : List (ℚ × ℚ))
    (alt latSp maxy : ℚ) : ℕ → ℚ → ℤ → List WaypointData × ℤ
  | 0, _, order => ([], order)
  | fuel + 1, lat, order =>
    if lat ≤ maxy then
      let row := renumberFrom order (mkCaptures alt (oracle.intersectHorizontal coords lat))
      let rest := chShapelyEW oracle coords alt latSp maxy fuel (lat + latSp)
        (order + row.length)
      (row ++ rest.1, rest.2)
    else ([], order)

/-- `_generate_crosshatch_shapely` (waypoint_generator.py:224-297). -/
def generateCrosshatchShapely (oracle : ShapelyOracle) (cosMeanLat : ℚ)
    (coords : List (ℚ × ℚ)) (bounds : ℚ × ℚ × ℚ × ℚ)
    (altitude_m line_spacing_m : ℚ) (cross_lines : Bool) : List WaypointData :=
  let minx := bounds.1
  let miny := bounds.2.1
  let maxx := bounds.2.2.1
  let maxy := bounds.2.2.2
  let lat_spacing_deg := line_spacing_m / 111000
  let lon_spacing_deg := line_spacing_m / (111000 * cosMeanLat)
  let ns := chShapelyNS oracle coords altitude_m lon_spacing_deg maxx
    (loopFuel minx maxx lon_spacing_deg) minx true 1
  if cross_lines then
    let ew := chShapelyEW oracle coords altitude_m lat_spacing_deg maxy
      (loopFuel miny maxy lat_spacing_deg) miny ns.2
    ns.1 ++ ew.1
  else ns.1

/-- Survey polygon after `_parse_survey_area`: the exterior ring plus its
bounding box.  In the Shapely branch `polygon.bounds` equals the coordinate
extremes of the ring and `polygon.exterior.coords` the ring itself, so one
representation serves both modes. -/
structure ParsedPoly where
  coords : List (ℚ × ℚ)
  bounds : ℚ × ℚ × ℚ × ℚ

/-- Whether the computational-geometry library is importable
(`SHAPELY_AVAILABLE`, waypoint_generator.py:17-23), carrying its behaviour
when it is. -/
inductive GenMode
  | shapelyMode (oracle : ShapelyOracle)
  | simpleMode

/-- `_generate_crosshatch_pattern` (waypoint_generator.py:197-222): line
spacing from altitude and overlap unless overridden, then the mode-specific
sweep. -/
def generateCrosshatchPattern (mode : GenMode) (cosMeanLat : ℚ) (poly : ParsedPoly)
    (altitude_m overlap_percentage : ℚ) (lineSpacingOverride : Option ℚ)
    (cross_lines : Bool) : List WaypointData :=
  let line_spacing_m :=
    match lineSpacingOverride with
    | some s => s
    | none => calculateLineSpacing altitude_m overlap_percentage
  match mode with
  | .shapelyMode oracle =>
      generateCrosshatchShapely oracle cosMeanLat poly.coords poly.bounds
        altitude_m line_spacing_m cross_lines
  | .simpleMode =>
      generateCrosshatchSimple cosMeanLat poly.coords poly.bounds
        altitude_m line_spacing_m

/-- `_generate_perimeter_pattern` (waypoint_generator.py:361-395): the ring's
vertices in order, skipping the closing duplicate; the accepted
`buffer_distance_m` parameter is unused by the source. -/
def generatePerimeterPattern (poly : ParsedPoly) (altitude_m : ℚ) : List WaypointData :=
  renumberFrom 1 (mkCaptures altitude_m poly.coords.dropLast)

/-- `_validate_inputs` (waypoint_generator.py:106-130).  The raw GeoJSON text
argument is modelled as `Option GeoJson`: `none` is falsy text (empty or
missing). -/
def validateInputs (survey_area_geojson : Option GeoJson)
    (altitude_m overlap_percentage : ℚ) (pattern_type : String) : Option PyErr :=
  match survey_area_geojson with
  | none => some (.valueError "Survey area GeoJSON is required")
  | some _ =>
    if altitude_m < 10 ∨ altitude_m > 400 then
      some (.valueError "Altitude must be between 10 and 400 meters")
    else if overlap_percentage < 30 ∨ overlap_percentage > 90 then
      some (.valueError "Overlap percentage must be between 30 and 90")
    else if pattern_type = "crosshatch" ∨ pattern_type = "grid" ∨ pattern_type = "perimeter" then
      none
    else some (.valueError "Pattern type must be one of: crosshatch, grid, perimeter")

/-- `_parse_survey_area` (waypoint_generator.py:132-167).  An empty
`coordinates` list makes `coordinates[0]` raise `IndexError`, re-raised as
`ValueError` by the handler at line 166. -/
def parseSurveyArea (mode : GenMode) (g : GeoJson) : Except PyErr ParsedPoly :=
  if g.type ≠ "Polygon" then .error (.valueError "GeoJSON must be a Polygon")
  else
    match g.coordinates with
    | [] => .error (.valueError "Invalid GeoJSON format: list index out of range")
    | ring :: _ =>
      match mode with
      | .shapelyMode oracle =>
        if oracle.isValid ring then .ok { coords := ring, bounds := calculateBounds ring }
        else .error (.valueError "Invalid polygon geometry")
      | .simpleMode =>
        if ring.length < 4 then
          .error (.valueError "Polygon must have at least 4 coordinates")
        else .ok { coords := ring, bounds := calculateBounds ring }

/-- Pattern dispatch of `generate_waypoints` (waypoint_generator.py:82-96);
`grid` delegates to crosshatch with `cross_lines=True`
(waypoint_generator.py:343-359).  The `NotImplementedError` arm is
unreachable after `_validate_inputs`. -/
def genPattern (mode : GenMode) (cosMeanLat : ℚ) (poly : ParsedPoly)
    (altitude_m overlap_percentage : ℚ) (pattern_type : String)
    (lineSpacingOverride : Option ℚ) (cross_lines : Bool) :
    Except PyErr (List WaypointData) :=
  if pattern_type = "crosshatch" then
    .ok (generateCrosshatchPattern mode cosMeanLat poly altitude_m overlap_percentage
      lineSpacingOverride cross_lines)
  else if pattern_type = "grid" then
    .ok (generateCrosshatchPattern mode cosMeanLat poly altitude_m overlap_percentage
      lineSpacingOverride true)
  else if pattern_type = "perimeter" then
    .ok (generatePerimeterPattern poly altitude_m)
  else .error (.notImplementedError "Pattern type not implemented")

/-- `WaypointGenerator.generate_waypoints` (waypoint_generator.py:57-104):
validate, parse, generate the pattern, add takeoff/landing, compute timing at
the default speed 15 m/s.  `dist` abstracts `_calculate_distance` and
`cosMeanLat` the `math.cos` conversion factor; `kwargs` of the source are the
`lineSpacingOverride` and `cross_lines` parameters (defaults `none`, `true`). -/
def generateWaypoints (mode : GenMode) (dist : ℚ → ℚ → ℚ → ℚ → ℚ)
    (cosMeanLat : ℚ) (survey_area_geojson : Option GeoJson)
    (altitude_m overlap_percentage : ℚ) (pattern_type : String)
    (lineSpacingOverride : Option ℚ) (cross_lines : Bool) :
    Except PyErr (List WaypointData) :=
  match validateInputs survey_area_geojson altitude_m overlap_percentage pattern_type with
  | some e => .error e
  | none =>
    match survey_area_geojson with
    | none => .error (.valueError "Survey area GeoJSON is required")
    | some g =>
      (parseSurveyArea mode g).bind fun poly =>
        (genPattern mode cosMeanLat poly altitude_m overlap_percentage pattern_type
          lineSpacingOverride cross_lines).map fun waypoints =>
          calculateTiming dist 15 (addTakeoffLanding waypoints)

/-! ## Mission planning service (`app/services/mission_planner.py`) -/

/-- A `mission_data` dictionary as consumed by `plan_mission`: `none` models
an absent key.  The GeoJSON value is carried already decoded (the source
accepts either a dict or a JSON string and decodes the latter). -/
structure MissionData where
  name : Option String
  survey_area_geojson : Option GeoJson
  altitude_m : Option ℚ
  overlap_percentage : Option ℚ
  survey_pattern : Option String
deriving Repr, DecidableEq

/-- Required-field pass of `validate_mission_parameters`
(mission_planner.py:100-111). -/
def requiredFieldErrors (md : MissionData) : List String :=
  (if md.name.isNone then ["Missing required field: name"] else []) ++
  (if md.survey_area_geojson.isNone then ["Missing required field: survey_area_geojson"] else []) ++
  (if md.altitude_m.isNone then ["Missing required field: altitude_m"] else []) ++
  (if md.overlap_percentage.isNone then ["Missing required field: overlap_percentage"] else []) ++
  (if md.survey_pattern.isNone then ["Missing required field: survey_pattern"] else [])

/-- `MissionPlanner.validate_mission_parameters` (mission_planner.py:88-149):
required fields, altitude in (0, 120] and ≥ 10, overlap in [10, 90], and a
valid non-zero-area polygon — the geometry checks delegated to the
third-party library abstracted as `sh`.  Returns `(valid, errors)`.  Numeric
fields are carried as ℚ, so the `isinstance` arms never fire in the model. -/
def validateMissionParameters (sh : ShapelyOracle) (md : MissionData) :
    Bool × List String :=
  let fieldErrs := requiredFieldErrors md
  if !fieldErrs.isEmpty then (false, fieldErrs)
  else
    let altitude := md.altitude_m.getD 0
    let altErrs :=
      if altitude ≤ 0 then ["Altitude must be a positive number"]
      else if altitude > 120 then ["Altitude exceeds maximum limit of 120 meters"]
      else if altitude < 10 then ["Altitude below minimum safe limit of 10 meters"]
      else []
    let overlap := md.overlap_percentage.getD 0
    let ovErrs :=
      if overlap < 10 ∨ overlap > 90 then
        ["Overlap percentage must be between 10% and 90%"]
      else []
    let geoErrs :=
      match md.survey_area_geojson with
      | none => []
      | some g =>
        match g.coordinates with
        | [] => ["Invalid survey area GeoJSON: list index out of range"]
        | ring :: _ =>
          if !sh.isValid ring then ["Survey area polygon is not valid"]
          else if sh.area ring = 0 then ["Survey area has zero area"]
          else []
    let errors := altErrs ++ ovErrs ++ geoErrs
    (errors.isEmpty, errors)

/-- The required parameters of `generate_waypoints` after `self`
(waypoint_generator.py:57-59); everything else is swallowed by `**kwargs`. -/
def generateWaypointsParams : List String :=
  ["survey_area_geojson", "altitude_m", "overlap_percentage", "pattern_type"]

/-- Python call binding for an all-keyword call to `generate_waypoints`: each
required parameter must appear among the keyword names, unmatched keywords
land in `**kwargs`, and a missing required parameter raises `TypeError`
before the callee body runs. -/
def bindGenerateWaypointsCall (keywordNames : List String) : Option PyErr :=
  if generateWaypointsParams.all (fun p => keywordNames.contains p) then none
  else some (.typeError
    "generate_waypoints() missing 1 required positional argument: pattern_type")

/-- The keyword names used at the `plan_mission` call site
(mission_planner.py:54-59): the fourth is `survey_pattern`, not the callee's
`pattern_type`. -/
def planMissionCallKeywords : List String :=
  ["survey_area_geojson", "altitude_m", "overlap_percentage", "survey_pattern"]

/-- Failure payloads of `plan_mission`. -/
inductive PlanError
  | validationErrors (errs : List String)
  | waypointGenerationFailed (msg : String)
deriving Repr, DecidableEq

/-- Result dictionary of `plan_mission`, flattened to the fields the claims
mention. -/
structure PlanResult where
  success : Bool
  error : Option PlanError
  waypoints : List WaypointData
deriving Repr, DecidableEq

/-- `MissionPlanner.plan_mission` (mission_planner.py:27-87).  After
validation it calls `generate_waypoints` with the keyword `survey_pattern`
(mission_planner.py:58); the callee's parameter is `pattern_type`
(waypoint_generator.py:58), so the call raises `TypeError`, which the
`except Exception` at line 60 turns into a `success=False` result.  Were the
binding to succeed, line 69 would evaluate
`self.waypoint_generator.calculate_estimated_duration(waypoints)` — no such
attribute exists on `WaypointGenerator` (the method is named
`estimate_mission_duration`, waypoint_generator.py:548) and the lookup is
outside any try/except, so `plan_mission` itself would raise
`AttributeError`. -/
def planMission (mode : GenMode) (dist : ℚ → ℚ → ℚ → ℚ → ℚ) (cosMeanLat : ℚ)
    (sh : ShapelyOracle) (md : MissionData) : Except PyErr PlanResult :=
  let v := validateMissionParameters sh md
  if !v.1 then
    .ok { success := false, error := some (.validationErrors v.2), waypoints := [] }
  else
    match bindGenerateWaypointsCall planMissionCallKeywords with
    | some _ =>
      .ok { success := false,
            error := some (.waypointGenerationFailed
              "Waypoint generation failed: generate_waypoints() missing 1 required positional argument: pattern_type"),
            waypoints := [] }
    | none =>
      match generateWaypoints mode dist cosMeanLat md.survey_area_geojson
          (md.altitude_m.getD 0) (md.overlap_percentage.getD 0)
          (md.survey_pattern.getD "") none true with
      | .error _ =>
        .ok { success := false,
              error := some (.waypointGenerationFailed "Waypoint generation failed"),
              waypoints := [] }
      | .ok _ =>
        .error (.attributeError
          "WaypointGenerator object has no attribute calculate_estimated_duration")

/-! ## Circuit breaker (`app/core/error_handling.py`) -/

/-- `ExternalServiceError.__init__` (error_handling.py:170-182): it passes
`retry_after=300` to the base constructor and forwards `**kwargs` alongside;
a caller that supplies a `retry_after` keyword therefore makes Python raise
`TypeError` (two values for one keyword argument) instead of constructing the
error object.  The result value is the constructed error's `retry_after`. -/
def externalServiceErrorNew (retry_after_kwarg : Option ℚ) : Except PyErr ℚ :=
  match retry_after_kwarg with
  | some _ => .error (.typeError
      "BaseApplicationError.__init__() got multiple values for keyword argument retry_after")
  | none => .ok 300

/-- Circuit-breaker states (error_handling.py:405): CLOSED, OPEN, HALF_OPEN. -/
inductive CBState
  | closed
  | opened
  | halfOpen
deriving Repr, DecidableEq

/-- `CircuitBreaker` instance state (error_handling.py:392-405). -/
structure CircuitBreaker where
  failure_threshold : ℕ
  recovery_timeout : ℚ
  failure_count : ℕ
  last_failure_time : Option ℚ
  state : CBState
deriving Repr, DecidableEq

/-- A breaker with the default settings (threshold 5, recovery 60 s). -/
def defaultCircuitBreaker : CircuitBreaker :=
  { failure_threshold := 5, recovery_timeout := 60, failure_count := 0,
    last_failure_time := none, state := .closed }

/-- `CircuitBreaker._should_attempt_reset` (error_handling.py:430-435). -/
def shouldAttemptReset (cb : CircuitBreaker) (now : ℚ) : Bool :=
  match cb.last_failure_time with
  | none => false
  | some t => decide (now - t ≥ cb.recovery_timeout)

/-- `CircuitBreaker._on_success` (error_handling.py:437-440). -/
def cbOnSuccess (cb : CircuitBreaker) : CircuitBreaker :=
  { cb with failure_count := 0, state := .closed }

/-- `CircuitBreaker._on_failure` (error_handling.py:442-448). -/
def cbOnFailure (cb : CircuitBreaker) (now : ℚ) : CircuitBreaker :=
  let n := cb.failure_count + 1
  { cb with
    failure_count := n
    last_failure_time := some now
    state := if n ≥ cb.failure_threshold then .opened else cb.state }

/-- Outcome of one wrapped invocation. -/
inductive CBOutcome
  | returned
  | raisedWrapped
  | raisedOpenCircuit (e : PyErr)
deriving Repr, DecidableEq

/-- Whether the wrapped function was invoked. -/
def CBOutcome.invoked : CBOutcome → Bool
  | .returned => true
  | .raisedWrapped => true
  | .raisedOpenCircuit _ => false

/-- One invocation through the `CircuitBreaker.__call__` wrapper
(error_handling.py:407-428): `now` is the wall-clock timestamp of the call
and `succeeds` tells whether the wrapped callable returns (true) or raises
its expected exception (false).  While OPEN and before the recovery timeout,
the wrapper raises `ExternalServiceError(..., retry_after=recovery_timeout)` —
whose construction itself raises `TypeError`
(see `externalServiceErrorNew`) — without invoking the wrapped function. -/
def cbCall (cb : CircuitBreaker) (now : ℚ) (succeeds : Bool) :
    CircuitBreaker × CBOutcome :=
  let invoke : CircuitBreaker → CircuitBreaker × CBOutcome := fun cb1 =>
    if succeeds then (cbOnSuccess cb1, .returned)
    else (cbOnFailure cb1 now, .raisedWrapped)
  match cb.state with
  | .opened =>
    if shouldAttemptReset cb now then invoke { cb with state := .halfOpen }
    else
      match externalServiceErrorNew (some cb.recovery_timeout) with
      | .error e => (cb, .raisedOpenCircuit e)
      | .ok r => (cb, .raisedOpenCircuit (.valueError (toString r)))
  | _ => invoke cb

/-- A sequence of invocations: `(time, succeeds)` pairs, threading the
breaker state. -/
def cbRun (cb : CircuitBreaker) : List (ℚ × Bool) → CircuitBreaker
  | [] => cb
  | p :: rest => cbRun (cbCall cb p.1 p.2).1 rest

/-! ## Domain data model

The module `app/models.py` is imported throughout the blueprints and the
simulator but is not among the provided sources; the records and model-level
operations below are modelled from the spec (§3, §4.5). -/

/-- Drone status enum (§3). -/
inductive DroneStatus
  | available
  | in_mission
  | maintenance
deriving Repr, DecidableEq

/-- Mission status enum (§3). -/
inductive MissionStatus
  | planned
  | in_progress
  | paused
  | completed
  | aborted
deriving Repr, DecidableEq

/-- Modelled from the spec: the Drone entity (§3).  Timestamps are ℚ seconds
since an arbitrary epoch. -/
structure DroneRec where
  id : ℕ
  name : String
  model : String
  status : DroneStatus
  battery_percentage : ℚ
  latitude : Option ℚ
  longitude : Option ℚ
  altitude : Option ℚ
  last_seen : Option ℚ
  flight_hours : ℚ
  missions_completed : ℕ
deriving Repr, DecidableEq

/-- Modelled from the spec: `Drone.is_battery_critical()` — battery < 10%
(§4.5, hard-coded at the model level). -/
def DroneRec.is_battery_critical (d : DroneRec) : Bool :=
  d.battery_percentage < 10

/-- Modelled from the spec: `Drone.is_battery_low()` — battery < 20% (§4.5). -/
def DroneRec.is_battery_low (d : DroneRec) : Bool :=
  d.battery_percentage < 20

/-- Modelled from the spec: `Drone.is_available_for_mission()` — the drone's
status is `available` (§4.10: starting requires the assigned drone to be
available). -/
def DroneRec.is_available_for_mission (d : DroneRec) : Bool :=
  d.status = .available

/-- Modelled from the spec: the Mission entity (§3).  `abort_reason` records
the reason passed to `abort_mission` (§4.5 logs it with the abort). -/
structure MissionRec where
  id : ℕ
  name : String
  status : MissionStatus
  drone_id : Option ℕ
  progress_percentage : ℚ
  current_waypoint_index : ℕ
  started_at : Option ℚ
  completed_at : Option ℚ
  abort_reason : Option String
deriving Repr, DecidableEq

/-- Modelled from the spec: `Mission.start_mission()` — Planned→InProgress,
stamps start time; the method itself does not re-validate the prior state
(§4.5). -/
def MissionRec.start_mission (m : MissionRec) (now : ℚ) : MissionRec :=
  { m with status := .in_progress, started_at := some now }

/-- Modelled from the spec: `Mission.pause_mission()` (§4.5). -/
def MissionRec.pause_mission (m : MissionRec) : MissionRec :=
  { m with status := .paused }

/-- Modelled from the spec: `Mission.resume_mission()` (§4.5). -/
def MissionRec.resume_mission (m : MissionRec) : MissionRec :=
  { m with status := .in_progress }

/-- Modelled from the spec: `Mission.abort_mission(reason)` — →Aborted,
stamps completion, records the reason (§4.5); releasing the assigned drone is
handled where the database is in scope. -/
def MissionRec.abort_mission (m : MissionRec) (reason : String) (now : ℚ) :
    MissionRec :=
  { m with
    status := .aborted
    completed_at := some now
    abort_reason := some reason }

/-- Modelled from the spec: `Mission.complete_mission()` (§4.5). -/
def MissionRec.complete_mission (m : MissionRec) (now : ℚ) : MissionRec :=
  { m with status := .completed, completed_at := some now }

/-- Modelled from the spec: `Mission.update_progress(percentage, waypoint)`
(§4.5). -/
def MissionRec.update_progress (m : MissionRec) (p : ℚ) (idx : ℕ) : MissionRec :=
  { m with progress_percentage := p, current_waypoint_index := idx }

/-! ## Mission lifecycle endpoints (`app/blueprints/missions.py`) -/

/-- Database snapshot seen by the mission blueprint handlers. -/
structure ApiDb where
  missions : List MissionRec
  drones : List DroneRec
  logs : List String
deriving Repr, DecidableEq

/-- `Mission.query.get_or_404(mission_id)`. -/
def ApiDb.findMission (db : ApiDb) (i : ℕ) : Option MissionRec :=
  db.missions.find? fun m => m.id == i

/-- `Drone.query.get(drone_id)`. -/
def ApiDb.findDrone (db : ApiDb) (i : ℕ) : Option DroneRec :=
  db.drones.find? fun d => d.id == i

/-- Write an updated mission row back. -/
def ApiDb.setMission (db : ApiDb) (m' : MissionRec) : ApiDb :=
  { db with missions := db.missions.map fun m => if m.id == m'.id then m' else m }

/-- Write an updated drone row back. -/
def ApiDb.setDrone (db : ApiDb) (d' : DroneRec) : ApiDb :=
  { db with drones := db.drones.map fun d => if d.id == d'.id then d' else d }

/-- Append a `MissionLog` entry (abstracted to its message text). -/
def ApiDb.addLog (db : ApiDb) (msg : String) : ApiDb :=
  { db with logs := db.logs ++ [msg] }

/-- `start_mission` endpoint (missions.py:266-314): 404 for an unknown id;
400 when the mission is not `planned`, has no assigned drone, or the drone is
unavailable; otherwise starts the mission, flips the drone to `in-mission`
and logs.  The result is the HTTP status code and the database after the
request. -/
def startMissionEndpoint (db : ApiDb) (now : ℚ) (mission_id : ℕ) : ℕ × ApiDb :=
  match db.findMission mission_id with
  | none => (404, db)
  | some mission =>
    if mission.status ≠ .planned then (400, db)
    else
      match mission.drone_id with
      | none => (400, db)
      | some did =>
        match db.findDrone did with
        | none => (400, db)
        | some drone =>
          if !drone.is_available_for_mission then (400, db)
          else
            let m' := mission.start_mission now
            let d' := { drone with status := .in_mission }
            (200, (((db.setMission m').setDrone d').addLog "Mission started"))

/-- `pause_mission` endpoint (missions.py:317-353). -/
def pauseMissionEndpoint (db : ApiDb) (mission_id : ℕ) : ℕ × ApiDb :=
  match db.findMission mission_id with
  | none => (404, db)
  | some mission =>
    if mission.status ≠ .in_progress then (400, db)
    else (200, ((db.setMission mission.pause_mission).addLog "Mission paused by operator"))

/-- `resume_mission` endpoint (missions.py:356-392). -/
def resumeMissionEndpoint (db : ApiDb) (mission_id : ℕ) : ℕ × ApiDb :=
  match db.findMission mission_id with
  | none => (404, db)
  | some mission =>
    if mission.status ≠ .paused then (400, db)
    else (200, ((db.setMission mission.resume_mission).addLog "Mission resumed by operator"))

/-- `abort_mission` endpoint (missions.py:395-443): 400 unless the mission is
in-progress or paused; otherwise aborts with the request's reason (default
"Mission aborted by operator") and releases the assigned drone. -/
def abortMissionEndpoint (db : ApiDb) (now : ℚ) (mission_id : ℕ)
    (reason : Option String) : ℕ × ApiDb :=
  match db.findMission mission_id with
  | none => (404, db)
  | some mission =>
    if mission.status ≠ .in_progress ∧ mission.status ≠ .paused then (400, db)
    else
      let r := reason.getD "Mission aborted by operator"
      let db1 := db.setMission (mission.abort_mission r now)
      let db2 :=
        match mission.drone_id with
        | some did =>
          match db1.findDrone did with
          | some d => db1.setDrone { d with status := .available }
          | none => db1
        | none => db1
      (200, db2.addLog "Mission aborted")

/-! ## Fleet summary (`app/blueprints/drones.py`) -/

/-- Per-drone term of `calculate_fleet_health_score` (drones.py:652-673):
100, minus 30/15 for critical/low battery, minus 20 for maintenance, minus
25/10 for >24 h/>1 h since last seen, floored at 0. -/
def droneHealthScore (now : ℚ) (d : DroneRec) : ℚ :=
  let s1 : ℚ := 100
  let s2 :=
    if d.is_battery_critical then s1 - 30
    else if d.is_battery_low then s1 - 15
    else s1
  let s3 := if d.status = .maintenance then s2 - 20 else s2
  let s4 :=
    match d.last_seen with
    | some t =>
      let hours_since_seen := (now - t) / 3600
      if hours_since_seen > 24 then s3 - 25
      else if hours_since_seen > 1 then s3 - 10
      else s3
    | none => s3
  max 0 s4

/-- `calculate_fleet_health_score` (drones.py:638-675): the per-drone scores
averaged over the fleet, rounded to one decimal; 0.0 for an empty fleet. -/
def calculateFleetHealthScore (now : ℚ) (drones : List DroneRec) : ℚ :=
  if drones.isEmpty then 0
  else pyRound1 (((drones.map (droneHealthScore now)).sum) / (drones.length : ℚ))

/-- drones.py line 18 imports the class: `from datetime import datetime,
timezone`; get_fleet_summary (drones.py:614-615) then evaluates
`datetime.timedelta(hours=1)`.  The class `datetime.datetime` has no
attribute `timedelta`, so the lookup raises `AttributeError`. -/
def datetimeTimedeltaLookup : Except PyErr ℚ :=
  .error (.attributeError "type object datetime has no attribute timedelta")

/-- `get_fleet_summary` endpoint (drones.py:598-635) under the
`@handle_errors` translator (drones.py:34-70): returns the HTTP status and
the `fleet_health_score` the response carries, if any.  With a non-empty
fleet the handler evaluates `datetime.timedelta` before anything else in the
insight block, and the raised `AttributeError` falls into the generic
`except Exception` arm, a 500 response. -/
def getFleetSummaryEndpoint (now : ℚ) (drones : List DroneRec) : ℕ × Option ℚ :=
  if drones.isEmpty then (200, none)
  else
    match datetimeTimedeltaLookup with
    | .error _ => (500, none)
    | .ok _ => (200, some (calculateFleetHealthScore now drones))

/-! ## AI drone scoring (`app/services/ai_mission_optimizer.py`) -/

/-- The fields of a `DroneScore` the claims mention
(ai_mission_optimizer.py:354-362). -/
structure DroneScoreRec where
  total_score : ℚ
  recommendation : String
  confidence : ℚ
deriving Repr, DecidableEq

/-- `DroneSelectionAI.score_drone_for_mission`
(ai_mission_optimizer.py:252-362) with the four `random.uniform` draws
(proximity, experience, maintenance, weather) as explicit parameters.
Python's truthiness test `drone.latitude and drone.longitude`
(ai_mission_optimizer.py:290) gates the proximity draw; without a truthy
location the proximity factor is the flat 50.  The weighted total is rounded
to two decimals. -/
def scoreDroneForMission (randProximity randExperience randMaintenance randWeather : ℚ)
    (drone : DroneRec) : DroneScoreRec :=
  let battery_score := drone.battery_percentage
  let availability_score : ℚ := if drone.status = .available then 100 else 0
  let proximity_score :=
    if pyTruthy drone.latitude && pyTruthy drone.longitude then randProximity else 50
  let experience_score := randExperience
  let maintenance_score := randMaintenance
  let weather_score := randWeather
  let total_score := battery_score * 0.25 + availability_score * 0.30 +
    proximity_score * 0.15 + experience_score * 0.15 +
    maintenance_score * 0.10 + weather_score * 0.05
  let rc : String × ℚ :=
    if total_score > 85 then ("Highly Recommended", 0.95)
    else if total_score > 70 then ("Recommended", 0.80)
    else if total_score > 55 then ("Suitable with Cautions", 0.65)
    else ("Not Recommended", 0.45)
  { total_score := pyRound2 total_score, recommendation := rc.1, confidence := rc.2 }

/-! ## Configuration schema (`app/core/config_schema.py`) -/

/-- The `environment` literal of `DroneSurveyConfig`
(config_schema.py:430-433). -/
inductive ConfigEnv
  | development
  | staging
  | production
  | docker
deriving Repr, DecidableEq

/-- Errors collected when pydantic constructs `MissionConfig`
(config_schema.py:326-423), restricted to the four fields its validators
involve (every other field keeps its declared default, which satisfies its
own bound).  Pydantic v1 validates fields in declaration order
(`min_altitude_m` before `max_altitude_m`, `battery_low_threshold` before
`battery_critical_threshold`), collects every error, runs a field's custom
validator only when its own constraints passed, and exposes
previously-passed fields through `values` — `values.get` falling back to the
written default (0 resp. 100) when the earlier field failed. -/
def missionConfigErrors
    (min_altitude_m max_altitude_m battery_low_threshold battery_critical_threshold : ℚ) :
    List String :=
  (if min_altitude_m < 0 then ["min_altitude_m: ensure this value is greater than or equal to 0"]
   else []) ++
  (if max_altitude_m < 1 then ["max_altitude_m: ensure this value is greater than or equal to 1"]
   else
    let min_alt := if min_altitude_m < 0 then 0 else min_altitude_m
    if max_altitude_m ≤ min_alt then
      ["max_altitude_m must be greater than min_altitude_m"]
    else []) ++
  (if battery_low_threshold < 0 ∨ battery_low_threshold > 100 then
    ["battery_low_threshold: out of range"]
   else []) ++
  (if battery_critical_threshold < 0 ∨ battery_critical_threshold > 100 then
    ["battery_critical_threshold: out of range"]
   else
    let low := if battery_low_threshold < 0 ∨ battery_low_threshold > 100 then 100
      else battery_low_threshold
    if battery_critical_threshold ≥ low then
      ["battery_critical_threshold must be less than battery_low_threshold"]
    else [])

/-- Errors collected when pydantic constructs `DroneSurveyConfig`
(config_schema.py:426-493) from an environment, a debug flag and the four
mission fields above: the `validate_debug_mode` validator
(config_schema.py:477-482) plus the nested `MissionConfig` errors. -/
def droneSurveyConfigErrors (environment : ConfigEnv) (debug : Bool)
    (min_altitude_m max_altitude_m battery_low_threshold battery_critical_threshold : ℚ) :
    List String :=
  (if debug ∧ environment = .production then ["Debug mode must be disabled in production"]
   else []) ++
  missionConfigErrors min_altitude_m max_altitude_m battery_low_threshold
    battery_critical_threshold

/-- Whether constructing the configuration object raises a validation
error. -/
def configConstructionFails (environment : ConfigEnv) (debug : Bool)
    (min_altitude_m max_altitude_m battery_low_threshold battery_critical_threshold : ℚ) :
    Bool :=
  !(droneSurveyConfigErrors environment debug min_altitude_m max_altitude_m
      battery_low_threshold battery_critical_threshold).isEmpty

/-! ## Standalone flight simulator (`backend/simulator.py`) -/

/-- `FlightState` dataclass (simulator.py:49-63). -/
structure FlightState where
  drone_id : ℕ
  mission_id : ℕ
  current_waypoint_index : ℕ
  target_waypoint_index : ℕ
  current_lat : ℚ
  current_lon : ℚ
  current_alt : ℚ
  battery_percentage : ℚ
  speed_mps : ℚ
  last_update : ℚ
  is_moving : Bool
  emergency_landing : Bool
deriving Repr, DecidableEq

/-- A stored waypoint row as the simulator reads it. -/
structure SimWaypoint where
  order : ℤ
  latitude : ℚ
  longitude : ℚ
  altitude : ℚ
  action : String
  completed : Bool
deriving Repr, DecidableEq

/-- WebSocket events the simulator emits through `/api/v1/simulator/emit`
(simulator.py:132-152), reduced to the identifying payload fields. -/
inductive SimEvent
  | emergency_alert (drone_id mission_id : ℕ) (battery : ℚ)
  | mission_completed (mission_id drone_id : ℕ)
  | drone_status_update (drone_id : ℕ)
  | mission_progress_update (mission_id : ℕ)
  | battery_warning (drone_id : ℕ) (level : String)
deriving Repr, DecidableEq

/-- The simulator's world: the shared database rows it touches, its in-memory
active-flight map (insertion-ordered, keyed by drone id), and the events
emitted so far. -/
structure SimWorld where
  missions : List MissionRec
  drones : List DroneRec
  waypoints : List (ℕ × List SimWaypoint)
  active_flights : List (ℕ × FlightState)
  events : List SimEvent
deriving Repr, DecidableEq

/-- Stored waypoint rows of a mission (unordered). -/
def SimWorld.waypointsOf (w : SimWorld) (mission_id : ℕ) : List SimWaypoint :=
  ((w.waypoints.find? fun p => p.1 == mission_id).map Prod.snd).getD []

/-- Insertion step for ordering waypoint rows by `order`. -/
def insertByOrder (x : SimWaypoint) : List SimWaypoint → List SimWaypoint
  | [] => [x]
  | y :: ys => if x.order ≤ y.order then x :: y :: ys else y :: insertByOrder x ys

/-- `query(...).order_by(Waypoint.order)` (simulator.py:183-185). -/
def sortByOrder : List SimWaypoint → List SimWaypoint
  | [] => []
  | x :: xs => insertByOrder x (sortByOrder xs)

/-- Look up a mission row. -/
def SimWorld.findMission (w : SimWorld) (i : ℕ) : Option MissionRec :=
  w.missions.find? fun m => m.id == i

/-- Look up a drone row. -/
def SimWorld.findDrone (w : SimWorld) (i : ℕ) : Option DroneRec :=
  w.drones.find? fun d => d.id == i

/-- Write an updated mission row back. -/
def SimWorld.setMission (w : SimWorld) (m' : MissionRec) : SimWorld :=
  { w with missions := w.missions.map fun m => if m.id == m'.id then m' else m }

/-- Write an updated drone row back. -/
def SimWorld.setDrone (w : SimWorld) (d' : DroneRec) : SimWorld :=
  { w with drones := w.drones.map fun d => if d.id == d'.id then d' else d }

/-- Mark the waypoint with the given `order` of a mission completed
(`target_waypoint.mark_completed()`, simulator.py:353). -/
def SimWorld.markWaypointCompleted (w : SimWorld) (mission_id : ℕ) (o : ℤ) : SimWorld :=
  { w with waypoints := w.waypoints.map fun p =>
      if p.1 == mission_id then
        (p.1, p.2.map fun wp => if wp.order == o then { wp with completed := true } else wp)
      else p }

/-- Abort a mission in the database: the spec-modelled
`Mission.abort_mission(reason)` also releases the assigned drone to
`available` (§4.5). -/
def SimWorld.abortMissionDb (w : SimWorld) (mission_id : ℕ) (reason : String)
    (now : ℚ) : SimWorld :=
  match w.findMission mission_id with
  | none => w
  | some m =>
    let w1 := w.setMission (m.abort_mission reason now)
    match m.drone_id with
    | some did =>
      match w1.findDrone did with
      | some d => w1.setDrone { d with status := .available }
      | none => w1
    | none => w1

/-- Append an emitted event. -/
def SimWorld.emit (w : SimWorld) (e : SimEvent) : SimWorld :=
  { w with events := w.events ++ [e] }

/-- Python `or` between an optional float and a fallback (`drone.latitude or
start_waypoint.latitude`, simulator.py:199-201): falsy (absent or 0.0) picks
the fallback. -/
def pyOr (v : Option ℚ) (fb : ℚ) : ℚ :=
  if pyTruthy v then v.getD fb else fb

/-- `DroneFlightSimulator.initialize_flight_state` (simulator.py:172-212). -/
def initializeFlightState (now : ℚ) (w : SimWorld) (m : MissionRec) :
    Option FlightState :=
  match m.drone_id with
  | none => none
  | some did =>
    match w.findDrone did with
    | none => none
    | some drone =>
      match sortByOrder (w.waypointsOf m.id) with
      | [] => none
      | start :: rest =>
        some
          { drone_id := drone.id
            mission_id := m.id
            current_waypoint_index := 0
            target_waypoint_index := if rest.length + 1 > 1 then 1 else 0
            current_lat := pyOr drone.latitude start.latitude
            current_lon := pyOr drone.longitude start.longitude
            current_alt := pyOr drone.altitude start.altitude
            battery_percentage := drone.battery_percentage
            speed_mps := 15
            last_update := now
            is_moving := true
            emergency_landing := false }

/-- `DroneFlightSimulator.interpolate_position` (simulator.py:238-262). -/
def interpolatePosition (current_lat current_lon target_lat target_lon
    distance_to_move total_distance : ℚ) : ℚ × ℚ :=
  if total_distance = 0 then (current_lat, current_lon)
  else
    let ratio := min (distance_to_move / total_distance) 1
    (current_lat + (target_lat - current_lat) * ratio,
     current_lon + (target_lon - current_lon) * ratio)

/-- `DroneFlightSimulator.update_flight_state` (simulator.py:264-437) for one
tracked flight: `dist` abstracts the haversine `calculate_distance` and `now`
the tick's wall clock.  Returns the world (database writes and emitted
events), the updated flight state, and the `True`/`False` keep-alive flag. -/
def updateFlightState (dist : ℚ → ℚ → ℚ → ℚ → ℚ) (now : ℚ) (w : SimWorld)
    (fs : FlightState) : SimWorld × FlightState × Bool :=
  match w.findMission fs.mission_id, w.findDrone fs.drone_id,
      sortByOrder (w.waypointsOf fs.mission_id) with
  | none, _, _ => (w, fs, false)
  | _, none, _ => (w, fs, false)
  | _, _, [] => (w, fs, false)
  | some mission, some drone, wp0 :: wpRest =>
    let waypoints := wp0 :: wpRest
    if mission.status ≠ .in_progress then (w, fs, false)
    else if fs.battery_percentage ≤ 5 ∧ fs.emergency_landing = false then
      let fs' := { fs with emergency_landing := true, is_moving := false }
      let w1 := w.emit (.emergency_alert drone.id mission.id fs.battery_percentage)
      let w2 := w1.abortMissionDb mission.id "Critical battery - emergency landing" now
      (w2, fs', false)
    else
      let time_elapsed := now - fs.last_update
      let battery_drain :=
        if fs.is_moving then 0.8 / 60 * time_elapsed else 0.3 / 60 * time_elapsed
      let fs1 :=
        { fs with
          last_update := now
          battery_percentage := max 0 (fs.battery_percentage - battery_drain) }
      if fs1.target_waypoint_index ≥ waypoints.length then
        let w1 := w.setMission (mission.complete_mission now)
        let w2 := w1.emit (.mission_completed mission.id drone.id)
        (w2, fs1, false)
      else
        let target := waypoints.getD fs1.target_waypoint_index wp0
        let distance_to_target :=
          dist fs1.current_lat fs1.current_lon target.latitude target.longitude
        let step :=
          if distance_to_target ≤ 5 then
            let wA := w.markWaypointCompleted fs1.mission_id target.order
            let fs2 :=
              { fs1 with
                current_waypoint_index := fs1.target_waypoint_index
                target_waypoint_index := fs1.target_waypoint_index + 1 }
            let progress := (fs2.current_waypoint_index : ℚ) / (waypoints.length : ℚ) * 100
            let wB := wA.setMission (mission.update_progress progress fs2.current_waypoint_index)
            let fs3 :=
              if target.action = "takeoff" then
                { fs2 with battery_percentage := fs2.battery_percentage - 1.5 }
              else if target.action = "land" then
                { fs2 with battery_percentage := fs2.battery_percentage - 1.5, is_moving := false }
              else fs2
            (wB, fs3)
          else
            if fs1.is_moving then
              let distance_to_move := fs1.speed_mps * time_elapsed
              let np := interpolatePosition fs1.current_lat fs1.current_lon
                target.latitude target.longitude distance_to_move distance_to_target
              (w, { fs1 with current_lat := np.1, current_lon := np.2, current_alt := target.altitude })
            else (w, fs1)
        let w3 := step.1
        let fs4 := step.2
        let d' :=
          { drone with
            latitude := some fs4.current_lat
            longitude := some fs4.current_lon
            altitude := some fs4.current_alt
            battery_percentage := fs4.battery_percentage
            last_seen := some now }
        let w4 := ((w3.setDrone d').emit (.drone_status_update drone.id)).emit
          (.mission_progress_update mission.id)
        let w5 :=
          if fs4.battery_percentage ≤ 10 then
            w4.emit (.battery_warning drone.id
              (if fs4.battery_percentage ≤ 5 then "critical" else "low"))
          else w4
        (w5, fs4, true)

/-- `get_active_missions` (simulator.py:154-170): missions `in-progress` with
an assigned drone. -/
def getActiveMissions (w : SimWorld) : List MissionRec :=
  w.missions.filter fun m => m.status == .in_progress && m.drone_id.isSome

/-- One pass of `simulation_loop` (simulator.py:443-468): initialize a flight
state for each newly in-progress mission whose drone is not yet tracked, run
`update_flight_state` over every tracked flight in insertion order, and drop
the flights whose update returned `False`. -/
def simulationTick (dist : ℚ → ℚ → ℚ → ℚ → ℚ) (now : ℚ) (w : SimWorld) : SimWorld :=
  let w1 := (getActiveMissions w).foldl
    (fun acc m =>
      match m.drone_id with
      | none => acc
      | some did =>
        if (acc.active_flights.find? fun p => p.1 == did).isSome then acc
        else
          match initializeFlightState now acc m with
          | some fsn => { acc with active_flights := acc.active_flights ++ [(did, fsn)] }
          | none => acc)
    w
  let step := w1.active_flights.foldl
    (fun (acc : SimWorld × List (ℕ × FlightState)) p =>
      let r := updateFlightState dist now acc.1 p.2
      (r.1, if r.2.2 then acc.2 ++ [(p.1, r.2.1)] else acc.2))
    (w1, [])
  { step.1 with active_flights := step.2 }

/-- Prefix test on character lists. -/
def isPrefixOfChars : List Char → List Char → Bool
  | [], _ => true
  | _ :: _, [] => false
  | a :: as, b :: bs => a == b && isPrefixOfChars as bs

/-- Infix (contiguous substring) test on character lists. -/
def isInfixOfChars (needle : List Char) : List Char → Bool
  | [] => isPrefixOfChars needle []
  | b :: bs => isPrefixOfChars needle (b :: bs) || isInfixOfChars needle bs

/-- ASCII lowercase of a character. -/
def charLower (c : Char) : Char :=
  if c.isUpper then Char.ofNat (c.toNat + 32) else c

/-- Case-insensitive substring test (for the claim's quoted abort-reason
phrase). -/
def containsCI (hay needle : String) : Bool :=
  isInfixOfChars (needle.data.map charLower) (hay.data.map charLower)

/-! ## Concrete instances used by witnesses -/

/-- Trivial distance oracle for concrete evaluations. -/
def zeroDist : ℚ → ℚ → ℚ → ℚ → ℚ := fun _ _ _ _ => 0

/-- Unit-square exterior ring (closed). -/
def sqRing : List (ℚ × ℚ) := [(0, 0), (1, 0), (1, 1), (0, 1), (0, 0)]

/-- A very thin rectangle: its bounding box is lower than one lattice row of
the fallback sweep, so the fallback crosshatch yields no survey points. -/
def thinRing : List (ℚ × ℚ) :=
  [(0, 0), (1, 0), (1, 1/1000000), (0, 1/1000000), (0, 0)]

/-- A geometry oracle that accepts every ring with area 1 and intersects
nothing. -/
def okOracle : ShapelyOracle :=
  { isValid := fun _ => true
    area := fun _ => 1
    intersectVertical := fun _ _ _ => []
    intersectHorizontal := fun _ _ => [] }

/-- A `mission_data` dictionary that passes `validate_mission_parameters`. -/
def validMd : MissionData :=
  { name := some "Survey"
    survey_area_geojson := some { type := "Polygon", coordinates := [sqRing] }
    altitude_m := some 50
    overlap_percentage := some 60
    survey_pattern := some "crosshatch" }

/-- The one-drone fleet of the fleet-health claim: battery 5 % (critical),
status `maintenance`, last seen 30 hours (108000 s) before the query. -/
def claimDrone : DroneRec :=
  { id := 1, name := "d1", model := "M", status := .maintenance,
    battery_percentage := 5, latitude := none, longitude := none,
    altitude := none, last_seen := some 0, flight_hours := 0,
    missions_completed := 0 }

/-- An available drone with battery 80 % and a known (truthy) location. -/
def aiDrone : DroneRec :=
  { id := 2, name := "d2", model := "M", status := .available,
    battery_percentage := 80, latitude := some 1, longitude := some 1,
    altitude := none, last_seen := none, flight_hours := 0,
    missions_completed := 0 }

/-- A stored mission in a terminal state (for guard-endpoint witnesses). -/
def doneMission : MissionRec :=
  { id := 3, name := "m3", status := .completed, drone_id := some 7,
    progress_percentage := 100, current_waypoint_index := 5,
    started_at := some 0, completed_at := some 600, abort_reason := none }

/-- A database holding only `doneMission`. -/
def doneDb : ApiDb := { missions := [doneMission], drones := [], logs := [] }

/-- Simulator witness: the drone of the tracked flight. -/
def simDrone : DroneRec :=
  { id := 7, name := "d7", model := "M", status := .in_mission,
    battery_percentage := 4, latitude := some 1, longitude := some 1,
    altitude := some 50, last_seen := some 0, flight_hours := 0,
    missions_completed := 0 }

/-- Simulator witness: the owning in-progress mission. -/
def simMission : MissionRec :=
  { id := 3, name := "m3", status := .in_progress, drone_id := some 7,
    progress_percentage := 10, current_waypoint_index := 1,
    started_at := some 0, completed_at := none, abort_reason := none }

/-- Simulator witness: a stored waypoint row of the mission. -/
def simWp : SimWaypoint :=
  { order := 0, latitude := 1, longitude := 1, altitude := 50,
    action := "takeoff", completed := true }

/-- Simulator witness: the tracked flight with battery at 4 %, emergency
landing not yet triggered. -/
def simFs : FlightState :=
  { drone_id := 7, mission_id := 3, current_waypoint_index := 1,
    target_waypoint_index := 2, current_lat := 1, current_lon := 1,
    current_alt := 50, battery_percentage := 4, speed_mps := 15,
    last_update := 100, is_moving := true, emergency_landing := false }

/-- Simulator witness: the world before the tick. -/
def simW0 : SimWorld :=
  { missions := [simMission], drones := [simDrone], waypoints := [(3, [simWp])],
    active_flights := [(7, simFs)], events := [] }

/-- A default-settings breaker right after five consecutive failures at times
0..4 (the state `cbRun` reaches). -/
def cbOpen5 : CircuitBreaker :=
  { failure_threshold := 5, recovery_timeout := 60, failure_count := 5,
    last_failure_time := some 4, state := .opened }

/-- The thin rectangle as a GeoJSON value. -/
def thinGeo : GeoJson := { type := "Polygon", coordinates := [thinRing] }

/-- The parsed form of `thinGeo`. -/
def thinPoly : ParsedPoly := { coords := thinRing, bounds := (0, 0, 1, 1/1000000) }

/-- The unit square as a GeoJSON value. -/
def sqGeo : GeoJson := { type := "Polygon", coordinates := [sqRing] }

/-- The waypoint list `generate_waypoints` produces for the unit square in
perimeter mode at altitude 50 (zero distance oracle): takeoff, the four
vertices, landing. -/
def c4Out : List WaypointData :=
  [{ latitude := 0, longitude := 0, altitude := 50, order := 0, action := "takeoff",
     estimated_time_seconds := some 0 },
   { latitude := 0, longitude := 0, altitude := 50, order := 1, action := "capture",
     estimated_time_seconds := some 12 },
   { latitude := 0, longitude := 1, altitude := 50, order := 2, action := "capture",
     estimated_time_seconds := some 14 },
   { latitude := 1, longitude := 1, altitude := 50, order := 3, action := "capture",
     estimated_time_seconds := some 16 },
   { latitude := 1, longitude := 0, altitude := 50, order := 4, action := "capture",
     estimated_time_seconds := some 18 },
   { latitude := 0, longitude := 0, altitude := 0, order := 5, action := "land",
     estimated_time_seconds := some 33 }]

/-! # Theorems -/

/-- Orders assigned by the renumbering loop: `k, k+1, …`. -/
theorem renumberFrom_map_order (l : List WaypointData) (k : ℤ) :
    (renumberFrom k l).map (fun wp => wp.order) =
      (List.range l.length).map (fun i : ℕ => k + (i : ℤ)) := by
  induction l generalizing k with
  | nil => simp [renumberFrom]
  | cons x xs ih =>
    simp only [renumberFrom, List.map_cons, List.length_cons,
      List.range_succ_eq_map, List.map_map, ih]
    congr 1
    · simp
    · apply List.map_congr_left
      intro i _
      simp [Function.comp]
      ring

/-- Renumbering changes nothing but `order`. -/
theorem renumberFrom_map_inv {α : Type} (f : WaypointData → α)
    (hf : ∀ wp o, f { wp with order := o } = f wp)
    (l : List WaypointData) (k : ℤ) :
    (renumberFrom k l).map f = l.map f := by
  induction l generalizing k with
  | nil => rfl
  | cons x xs ih => simp [renumberFrom, hf, ih]

/-- The timing walk changes nothing but `estimated_time_seconds`. -/
theorem calcTimingAux_map_inv {α : Type} (f : WaypointData → α)
    (hf : ∀ wp t, f { wp with estimated_time_seconds := t } = f wp)
    (dist : ℚ → ℚ → ℚ → ℚ → ℚ) (speed : ℚ)
    (l : List WaypointData) (total : ℚ) (prev : WaypointData) :
    (calcTimingAux dist speed total prev l).map f = l.map f := by
  induction l generalizing total prev with
  | nil => rfl
  | cons x xs ih => simp [calcTimingAux, hf, ih]

/-- `_calculate_timing` changes nothing but `estimated_time_seconds`. -/
theorem calculateTiming_map_inv {α : Type} (f : WaypointData → α)
    (hf : ∀ wp t, f { wp with estimated_time_seconds := t } = f wp)
    (dist : ℚ → ℚ → ℚ → ℚ → ℚ) (speed : ℚ) (l : List WaypointData) :
    (calculateTiming dist speed l).map f = l.map f := by
  cases l with
  | nil => rfl
  | cons x xs => simp [calculateTiming, hf, calcTimingAux_map_inv f hf]

/-- Every waypoint a pattern builds from intersection coordinates sits at the
mission altitude. -/
theorem mkCaptures_altitude (alt : ℚ) (pts : List (ℚ × ℚ)) :
    ∀ wp ∈ mkCaptures alt pts, wp.altitude = alt := by
  intro wp hwp
  simp only [mkCaptures, List.mem_map] at hwp
  obtain ⟨c, _, rfl⟩ := hwp
  rfl

/-- Renumbering preserves a uniform altitude. -/
theorem renumberFrom_altitude {a : ℚ} {l : List WaypointData}
    (h : ∀ wp ∈ l, wp.altitude = a) :
    ∀ (k : ℤ), ∀ wp ∈ renumberFrom k l, wp.altitude = a := by
  induction l with
  | nil => intro k wp hwp; simp [renumberFrom] at hwp
  | cons x xs ih =>
    intro k wp hwp
    simp only [renumberFrom, List.mem_cons] at hwp
    rcases hwp with rfl | hwp
    · exact h x (by simp)
    · exact ih (fun w hw => h w (by simp [hw])) (k + 1) wp hwp

/-- Fallback lattice columns emit only mission-altitude waypoints. -/
theorem chSimpleCols_altitude (coords : List (ℚ × ℚ)) (alt lonSp maxx lat : ℚ) :
    ∀ (fuel : ℕ) (lon : ℚ) (ord : ℤ),
      ∀ wp ∈ (chSimpleCols coords alt lonSp maxx lat fuel lon ord).1,
        wp.altitude = alt := by
  intro fuel
  induction fuel with
  | zero => intro lon ord wp hwp; simp [chSimpleCols] at hwp
  | succ n ih =>
    intro lon ord wp hwp
    simp only [chSimpleCols] at hwp
    split at hwp
    · split at hwp
      · rcases List.mem_cons.mp hwp with rfl | hwp
        · rfl
        · exact ih _ _ wp hwp
      · exact ih _ _ wp hwp
    · simp at hwp

/-- Fallback lattice rows emit only mission-altitude waypoints. -/
theorem chSimpleRows_altitude (coords : List (ℚ × ℚ))
    (alt latSp lonSp minx maxx maxy : ℚ) (colFuel : ℕ) :
    ∀ (fuel : ℕ) (lat : ℚ) (ord : ℤ),
      ∀ wp ∈ (chSimpleRows coords alt latSp lonSp minx maxx maxy colFuel fuel lat ord).1,
        wp.altitude = alt := by
  intro fuel
  induction fuel with
  | zero => intro lat ord wp hwp; simp [chSimpleRows] at hwp
  | succ n ih =>
    intro lat ord wp hwp
    simp only [chSimpleRows] at hwp
    split at hwp
    · rcases List.mem_append.mp hwp with hwp | hwp
      · exact chSimpleCols_altitude coords alt lonSp maxx lat _ _ _ wp hwp
      · exact ih _ _ wp hwp
    · simp at hwp

/-- The north-south Shapely sweep emits only mission-altitude waypoints. -/
theorem chShapelyNS_altitude (oracle : ShapelyOracle) (coords : List (ℚ × ℚ))
    (alt lonSp maxx : ℚ) :
    ∀ (fuel : ℕ) (lon : ℚ) (dir : Bool) (ord : ℤ),
      ∀ wp ∈ (chShapelyNS oracle coords alt lonSp maxx fuel lon dir ord).1,
        wp.altitude = alt := by
  intro fuel
  induction fuel with
  | zero => intro lon dir ord wp hwp; simp [chShapelyNS] at hwp
  | succ n ih =>
    intro lon dir ord wp hwp
    simp only [chShapelyNS] at hwp
    split at hwp
    · rcases List.mem_append.mp hwp with hwp | hwp
      · exact renumberFrom_altitude (mkCaptures_altitude alt _) _ wp hwp
      · exact ih _ _ _ wp hwp
    · simp at hwp

/-- The east-west Shapely sweep emits only mission-altitude waypoints. -/
theorem chShapelyEW_altitude (oracle : ShapelyOracle) (coords : List (ℚ × ℚ))
    (alt latSp maxy : ℚ) :
    ∀ (fuel : ℕ) (lat : ℚ) (ord : ℤ),
      ∀ wp ∈ (chShapelyEW oracle coords alt latSp maxy fuel lat ord).1,
        wp.altitude = alt := by
  intro fuel
  induction fuel with
  | zero => intro lat ord wp hwp; simp [chShapelyEW] at hwp
  | succ n ih =>
    intro lat ord wp hwp
    simp only [chShapelyEW] at hwp
    split at hwp
    · rcases List.mem_append.mp hwp with hwp | hwp
      · exact renumberFrom_altitude (mkCaptures_altitude alt _) _ wp hwp
      · exact ih _ _ wp hwp
    · simp at hwp

/-- Crosshatch (either mode) emits only mission-altitude waypoints. -/
theorem generateCrosshatchPattern_altitude (mode : GenMode) (cosMeanLat : ℚ)
    (poly : ParsedPoly) (alt ov : ℚ) (lso : Option ℚ) (cl : Bool) :
    ∀ wp ∈ generateCrosshatchPattern mode cosMeanLat poly alt ov lso cl,
      wp.altitude = alt := by
  intro wp hwp
  cases mode with
  | shapelyMode oracle =>
    simp only [generateCrosshatchPattern, generateCrosshatchShapely] at hwp
    split at hwp
    · rcases List.mem_append.mp hwp with hwp | hwp
      · exact chShapelyNS_altitude oracle _ _ _ _ _ _ _ _ wp hwp
      · exact chShapelyEW_altitude oracle _ _ _ _ _ _ _ wp hwp
    · exact chShapelyNS_altitude oracle _ _ _ _ _ _ _ _ wp hwp
  | simpleMode =>
    simp only [generateCrosshatchPattern, generateCrosshatchSimple] at hwp
    exact chSimpleRows_altitude _ _ _ _ _ _ _ _ _ _ _ wp hwp

/-- Every survey waypoint any pattern produces sits at the mission
altitude. -/
theorem genPattern_altitude (mode : GenMode) (cosMeanLat : ℚ) (poly : ParsedPoly)
    (alt ov : ℚ) (pat : String) (lso : Option ℚ) (cl : Bool)
    (ps : List WaypointData)
    (h : genPattern mode cosMeanLat poly alt ov pat lso cl = .ok ps) :
    ∀ wp ∈ ps, wp.altitude = alt := by
  intro wp hwp
  unfold genPattern at h
  split at h
  · cases h with | refl => exact generateCrosshatchPattern_altitude _ _ _ _ _ _ _ wp hwp
  · split at h
    · cases h with | refl => exact generateCrosshatchPattern_altitude _ _ _ _ _ _ _ wp hwp
    · split at h
      · cases h with | refl =>
          exact renumberFrom_altitude (mkCaptures_altitude alt _) _ wp hwp
      · exact Except.noConfusion h

/-- Orders after `_add_takeoff_landing`: 0, then 1.., then `len + 1`. -/
theorem addTakeoffLanding_map_order (p : WaypointData) (tl : List WaypointData) :
    (addTakeoffLanding (p :: tl)).map (fun wp => wp.order) =
      0 :: ((List.range (p :: tl).length).map (fun i : ℕ => (1 : ℤ) + (i : ℤ)) ++
        [((p :: tl).length : ℤ) + 1]) := by
  simp [addTakeoffLanding, renumberFrom_map_order]

/-- Actions after `_add_takeoff_landing`: takeoff, the survey actions,
land. -/
theorem addTakeoffLanding_map_action (p : WaypointData) (tl : List WaypointData) :
    (addTakeoffLanding (p :: tl)).map (fun wp => wp.action) =
      "takeoff" :: ((p :: tl).map (fun wp => wp.action) ++ ["land"]) := by
  simp [addTakeoffLanding, renumberFrom_map_inv (fun wp => wp.action) (fun _ _ => rfl)]

/-- Altitudes after `_add_takeoff_landing`: the first survey altitude, the
survey altitudes, 0. -/
theorem addTakeoffLanding_map_altitude (p : WaypointData) (tl : List WaypointData) :
    (addTakeoffLanding (p :: tl)).map (fun wp => wp.altitude) =
      p.altitude :: ((p :: tl).map (fun wp => wp.altitude) ++ [(0 : ℚ)]) := by
  simp [addTakeoffLanding, renumberFrom_map_inv (fun wp => wp.altitude) (fun _ _ => rfl)]

/-- `0, 1, …, n+1` as a cons/append split of `range (n+2)`. -/
theorem range_cast_split (n : ℕ) :
    (List.range (n + 2)).map (fun i : ℕ => (i : ℤ)) =
      0 :: ((List.range n).map (fun i : ℕ => (1 : ℤ) + (i : ℤ)) ++ [(n : ℤ) + 1]) := by
  rw [List.range_succ, List.range_succ_eq_map]
  simp only [List.map_append, List.map_cons, List.map_map, List.map_nil, Nat.cast_zero]
  rw [List.cons_append]
  congr 1
  congr 1
  apply List.map_congr_left
  intro i _
  push_cast [Function.comp]
  ring

/-- C4: every non-empty list `generate_waypoints` returns starts with a
takeoff waypoint of order 0 at the mission altitude, ends with a landing
waypoint of altitude 0 and order N+1 (N survey waypoints in between), and the
orders run contiguously 0..N+1. -/
theorem c4_waypoint_ordering (mode : GenMode) (dist : ℚ → ℚ → ℚ → ℚ → ℚ)
    (cosMeanLat : ℚ) (g : Option GeoJson) (alt ov : ℚ) (pat : String)
    (lso : Option ℚ) (cl : Bool) (out : List WaypointData)
    (hgen : generateWaypoints mode dist cosMeanLat g alt ov pat lso cl = .ok out)
    (hne : out ≠ []) :
    out.map (fun wp => wp.order) = (List.range out.length).map (fun i : ℕ => (i : ℤ)) ∧
    out.head?.map (fun wp => wp.action) = some "takeoff" ∧
    out.head?.map (fun wp => wp.altitude) = some alt ∧
    out.getLast?.map (fun wp => wp.action) = some "land" ∧
    out.getLast?.map (fun wp => wp.altitude) = some (0 : ℚ) ∧
    out.getLast?.map (fun wp => wp.order) = some ((out.length : ℤ) - 1) := by
  unfold generateWaypoints at hgen
  rcases hv : validateInputs g alt ov pat with _ | e
  · rw [hv] at hgen
    dsimp only at hgen
    cases g with
    | none => exact Except.noConfusion hgen
    | some g' =>
      dsimp only at hgen
      rcases hp : parseSurveyArea mode g' with e | poly <;> rw [hp] at hgen
      · exact Except.noConfusion hgen
      · rcases hq : genPattern mode cosMeanLat poly alt ov pat lso cl with e | ps <;>
          simp only [hq, Except.bind, Except.map] at hgen
        · exact Except.noConfusion hgen
        · cases hgen with | refl =>
          cases ps with
          | nil => simp [addTakeoffLanding, calculateTiming] at hne
          | cons p tl =>
            have halt : ∀ wp ∈ p :: tl, wp.altitude = alt :=
              genPattern_altitude _ _ _ _ _ _ _ _ _ hq
            set out := calculateTiming dist 15 (addTakeoffLanding (p :: tl)) with hout
            have hford : ∀ (wp : WaypointData) (t : Option ℤ),
                (fun wp => wp.order) { wp with estimated_time_seconds := t } =
                  (fun wp => wp.order) wp := fun _ _ => rfl
            have hfact : ∀ (wp : WaypointData) (t : Option ℤ),
                (fun wp => wp.action) { wp with estimated_time_seconds := t } =
                  (fun wp => wp.action) wp := fun _ _ => rfl
            have hfalt : ∀ (wp : WaypointData) (t : Option ℤ),
                (fun wp => wp.altitude) { wp with estimated_time_seconds := t } =
                  (fun wp => wp.altitude) wp := fun _ _ => rfl
            have hmo : out.map (fun wp => wp.order) =
                0 :: ((List.range (p :: tl).length).map (fun i : ℕ => (1 : ℤ) + (i : ℤ)) ++
                  [((p :: tl).length : ℤ) + 1]) := by
              rw [hout, calculateTiming_map_inv _ hford, addTakeoffLanding_map_order]
            have hma : out.map (fun wp => wp.action) =
                "takeoff" :: ((p :: tl).map (fun wp => wp.action) ++ ["land"]) := by
              rw [hout, calculateTiming_map_inv _ hfact, addTakeoffLanding_map_action]
            have hmal : out.map (fun wp => wp.altitude) =
                p.altitude :: ((p :: tl).map (fun wp => wp.altitude) ++ [(0 : ℚ)]) := by
              rw [hout, calculateTiming_map_inv _ hfalt, addTakeoffLanding_map_altitude]
            have hlen : out.length = (p :: tl).length + 2 := by
              have := congrArg List.length hmo
              simpa using this
            refine ⟨?_, ?_, ?_, ?_, ?_, ?_⟩
            · rw [hmo, hlen, range_cast_split]
            · rw [← List.head?_map, hma]; rfl
            · rw [← List.head?_map, hmal]
              simp [halt p (by simp)]
            · rw [← List.getLast?_map, hma, ← List.cons_append, List.getLast?_concat]
            · rw [← List.getLast?_map, hmal, ← List.cons_append, List.getLast?_concat]
            · rw [← List.getLast?_map, hmo, ← List.cons_append, List.getLast?_concat, hlen]
              congr 1
              push_cast
              ring
  · rw [hv] at hgen
    dsimp only at hgen
    exact Except.noConfusion hgen

/-- C4 witness: the concrete perimeter mission over the unit square. -/
theorem c4_waypoint_ordering_witness :
    generateWaypoints .simpleMode zeroDist 1 (some sqGeo) 50 60 "perimeter"
      none true = .ok c4Out ∧
    c4Out ≠ [] ∧
    (c4Out.map (fun wp => wp.order) =
        (List.range c4Out.length).map (fun i : ℕ => (i : ℤ)) ∧
      c4Out.head?.map (fun wp => wp.action) = some "takeoff" ∧
      c4Out.head?.map (fun wp => wp.altitude) = some 50 ∧
      c4Out.getLast?.map (fun wp => wp.action) = some "land" ∧
      c4Out.getLast?.map (fun wp => wp.altitude) = some (0 : ℚ) ∧
      c4Out.getLast?.map (fun wp => wp.order) = some ((c4Out.length : ℤ) - 1)) := by
  have hgen : generateWaypoints .simpleMode zeroDist 1 (some sqGeo) 50 60 "perimeter"
      none true = .ok c4Out := by
    simp +decide only [generateWaypoints, validateInputs, parseSurveyArea, sqGeo, sqRing,
      genPattern, generatePerimeterPattern, mkCaptures, renumberFrom, addTakeoffLanding,
      calculateTiming, calcTimingAux, actionTime, pyTrunc, zeroDist, c4Out,
      List.dropLast, Except.bind, Except.map, List.map_cons, List.map_nil,
      List.length_cons, List.length_nil, List.cons_append, List.nil_append]
    norm_num [renumberFrom, addTakeoffLanding, calculateTiming, calcTimingAux,
      actionTime, pyTrunc, zeroDist, c4Out, Except.bind, Except.map]
    simp +decide only [ite_true, ite_false]
    norm_num
  exact ⟨hgen, by decide,
    c4_waypoint_ordering _ _ _ _ _ _ _ _ _ _ hgen (by decide)⟩

/-- Insertion sort of a non-empty row set is non-empty. -/
theorem sortByOrder_ne_nil {l : List SimWaypoint} (h : l ≠ []) :
    sortByOrder l ≠ [] := by
  cases l with
  | nil => exact absurd rfl h
  | cons x xs =>
    simp only [sortByOrder]
    cases hs : sortByOrder xs with
    | nil => simp [insertByOrder]
    | cons y ys =>
      simp only [insertByOrder]
      split <;> simp

/-- C7: a tracked flight with battery at or below 5 % and the emergency flag
clear makes the next tick emit exactly one emergency alert, abort the owning
mission with a reason containing "critical battery" (case-insensitively), and
drop the flight from the active map, so a second tick emits nothing
further. -/
theorem c7_emergency_abort_once (dist : ℚ → ℚ → ℚ → ℚ → ℚ) (now : ℚ)
    (w : SimWorld) (m : MissionRec) (d : DroneRec) (fs : FlightState)
    (wps : List SimWaypoint)
    (hm : w.missions = [m]) (hd : w.drones = [d])
    (hw : w.waypoints = [(m.id, wps)]) (ha : w.active_flights = [(d.id, fs)])
    (hfsm : fs.mission_id = m.id) (hfsd : fs.drone_id = d.id)
    (hstatus : m.status = .in_progress) (hdrone : m.drone_id = some d.id)
    (hwne : wps ≠ [])
    (hbat : fs.battery_percentage ≤ 5) (heml : fs.emergency_landing = false) :
    (simulationTick dist now w).events =
        w.events ++ [.emergency_alert d.id m.id fs.battery_percentage] ∧
    (simulationTick dist now w).missions =
        [m.abort_mission "Critical battery - emergency landing" now] ∧
    (m.abort_mission "Critical battery - emergency landing" now).status = .aborted ∧
    containsCI "Critical battery - emergency landing" "critical battery" = true ∧
    (simulationTick dist now w).active_flights = [] ∧
    (∀ now2, (simulationTick dist now2 (simulationTick dist now w)).events =
        (simulationTick dist now w).events) := by
  have hfm : w.findMission fs.mission_id = some m := by
    simp [SimWorld.findMission, hm, hfsm]
  have hfd : w.findDrone fs.drone_id = some d := by
    simp [SimWorld.findDrone, hd, hfsd]
  have hw0 : w.waypointsOf fs.mission_id = wps := by
    simp [SimWorld.waypointsOf, hw, hfsm]
  obtain ⟨w0, wr, hsort⟩ : ∃ w0 wr, sortByOrder wps = w0 :: wr := by
    cases hs : sortByOrder wps with
    | nil => exact absurd hs (sortByOrder_ne_nil hwne)
    | cons a b => exact ⟨a, b, rfl⟩
  have hupdate : updateFlightState dist now w fs =
      ((w.emit (.emergency_alert d.id m.id fs.battery_percentage)).abortMissionDb m.id
        "Critical battery - emergency landing" now,
       { fs with emergency_landing := true, is_moving := false }, false) := by
    unfold updateFlightState
    rw [hfm, hfd, hw0, hsort]
    dsimp only
    rw [if_neg (by simp [hstatus]), if_pos ⟨hbat, heml⟩]
  have habort : (w.emit (.emergency_alert d.id m.id fs.battery_percentage)).abortMissionDb
      m.id "Critical battery - emergency landing" now =
      { missions := [m.abort_mission "Critical battery - emergency landing" now],
        drones := [{ d with status := .available }],
        waypoints := w.waypoints,
        active_flights := w.active_flights,
        events := w.events ++ [.emergency_alert d.id m.id fs.battery_percentage] } := by
    simp [SimWorld.emit, SimWorld.abortMissionDb, SimWorld.findMission, hm, hdrone,
      SimWorld.setMission, SimWorld.findDrone, hd, SimWorld.setDrone,
      MissionRec.abort_mission]
  have htick : simulationTick dist now w =
      { missions := [m.abort_mission "Critical battery - emergency landing" now],
        drones := [{ d with status := .available }],
        waypoints := w.waypoints,
        active_flights := [],
        events := w.events ++ [.emergency_alert d.id m.id fs.battery_percentage] } := by
    unfold simulationTick
    rw [show getActiveMissions w = [m] from by
      simp [getActiveMissions, hm, hstatus, hdrone]]
    simp only [hdrone, ha, List.foldl_cons, List.foldl_nil, List.find?_cons]
    rw [if_pos (by simp)]
    simp only [hupdate, habort, ha, List.foldl_cons, List.foldl_nil]
    simp
  refine ⟨by rw [htick], by rw [htick], rfl, by decide, by rw [htick], fun now2 => ?_⟩
  rw [htick]
  unfold simulationTick
  rw [show getActiveMissions
      { missions := [m.abort_mission "Critical battery - emergency landing" now],
        drones := [{ d with status := .available }],
        waypoints := w.waypoints,
        active_flights := [],
        events := w.events ++ [.emergency_alert d.id m.id fs.battery_percentage] } =
      ([] : List MissionRec) from by
    simp [getActiveMissions, MissionRec.abort_mission]]
  simp

/-- C7 witness: the concrete tracked flight at 4 % battery over mission 3 and
drone 7; ticks at times 102 then 104. -/
theorem c7_emergency_abort_once_witness :
    (simulationTick zeroDist 102 simW0).events = [SimEvent.emergency_alert 7 3 4] ∧
    (simulationTick zeroDist 102 simW0).missions =
        [simMission.abort_mission "Critical battery - emergency landing" 102] ∧
    (simMission.abort_mission "Critical battery - emergency landing" 102).status =
      .aborted ∧
    containsCI "Critical battery - emergency landing" "critical battery" = true ∧
    (simulationTick zeroDist 102 simW0).active_flights = [] ∧
    (simulationTick zeroDist 104 (simulationTick zeroDist 102 simW0)).events =
        (simulationTick zeroDist 102 simW0).events := by
  have h := c7_emergency_abort_once zeroDist 102 simW0 simMission simDrone simFs [simWp]
    rfl rfl rfl rfl rfl rfl rfl rfl (by simp) (by norm_num [simFs]) rfl
  exact ⟨by simpa [simW0, simDrone, simMission, simFs] using h.1, h.2.1, h.2.2.1,
    h.2.2.2.1, h.2.2.2.2.1, h.2.2.2.2.2 104⟩

/-- C6: for every altitude and overlap, the computed line spacing equals
`max(altitude * 1.732 * (100 − overlap) / 100, 10.0)`; for altitude 100 and
overlap 70 it is 51.96 m, and for overlap 95 the 10 m floor applies. -/
theorem c6_line_spacing_formula :
    (∀ altitude_m overlap_percentage : ℚ,
      calculateLineSpacing altitude_m overlap_percentage =
        max (altitude_m * 1.732 * (100 - overlap_percentage) / 100) 10) ∧
    calculateLineSpacing 100 70 = 51.96 ∧
    calculateLineSpacing 100 95 = 10 := by
  refine ⟨fun a o => ?_, by norm_num [calculateLineSpacing],
    by norm_num [calculateLineSpacing]⟩
  unfold calculateLineSpacing
  ring_nf

/-- C1 (refuted by the code): whenever `mission_data` passes
`validate_mission_parameters`, `plan_mission` does NOT return success with
waypoints and a duration — its keyword `survey_pattern` fails to bind the
callee's `pattern_type` parameter, the resulting `TypeError` is swallowed by
the generation try/except, and the call returns `success = False` with the
"Waypoint generation failed" error for every valid input. -/
theorem c1_plan_mission_never_succeeds (mode : GenMode)
    (dist : ℚ → ℚ → ℚ → ℚ → ℚ) (cosMeanLat : ℚ)
    (sh : ShapelyOracle) (md : MissionData)
    (hvalid : (validateMissionParameters sh md).1 = true) :
    planMission mode dist cosMeanLat sh md =
      .ok { success := false,
            error := some (.waypointGenerationFailed
              "Waypoint generation failed: generate_waypoints() missing 1 required positional argument: pattern_type"),
            waypoints := [] } := by
  simp only [planMission, hvalid, Bool.not_true, Bool.false_eq_true, if_false]
  rfl

/-- C1 witness: a concrete valid `mission_data` (unit-square polygon,
altitude 50, overlap 60, crosshatch) on which the theorem applies. -/
theorem c1_plan_mission_never_succeeds_witness :
    (validateMissionParameters okOracle validMd).1 = true ∧
    planMission .simpleMode zeroDist 1 okOracle validMd =
      .ok { success := false,
            error := some (.waypointGenerationFailed
              "Waypoint generation failed: generate_waypoints() missing 1 required positional argument: pattern_type"),
            waypoints := [] } :=
  ⟨by decide, c1_plan_mission_never_succeeds _ _ _ _ _ (by decide)⟩

/-- C5 (refuted by the code): for the claim's one-drone fleet (battery 5 %,
maintenance, last seen 30 h ago) the per-drone scoring function does yield
exactly 25.0, but the fleet-summary endpoint never returns it — the handler
evaluates `datetime.timedelta` (an `AttributeError` under the module's
imports) for every non-empty fleet and responds 500. -/
theorem c5_fleet_summary_crashes :
    calculateFleetHealthScore 108000 [claimDrone] = 25 ∧
    getFleetSummaryEndpoint 108000 [claimDrone] = (500, none) := by
  constructor
  · norm_num [calculateFleetHealthScore, droneHealthScore, claimDrone, pyRound1,
      roundHalfEven, DroneRec.is_battery_critical, DroneRec.is_battery_low]
  · norm_num [getFleetSummaryEndpoint, claimDrone, datetimeTimedeltaLookup]

/-- C9: with every field inside its declared pydantic bound, constructing the
configuration fails exactly when `max_altitude_m ≤ min_altitude_m`, or
`battery_critical_threshold ≥ battery_low_threshold`, or debug is on in the
production environment. -/
theorem c9_config_validation (env : ConfigEnv) (debug : Bool)
    (minA maxA low crit : ℚ)
    (h1 : 0 ≤ minA) (h2 : 1 ≤ maxA) (h3 : 0 ≤ low) (h4 : low ≤ 100)
    (h5 : 0 ≤ crit) (h6 : crit ≤ 100) :
    configConstructionFails env debug minA maxA low crit = true ↔
      (maxA ≤ minA ∨ low ≤ crit ∨ (debug = true ∧ env = .production)) := by
  unfold configConstructionFails droneSurveyConfigErrors missionConfigErrors
  rw [if_neg (not_lt.mpr h1), if_neg (not_lt.mpr h2),
    if_neg (not_or.mpr ⟨not_lt.mpr h3, not_lt.mpr h4⟩),
    if_neg (not_or.mpr ⟨not_lt.mpr h5, not_lt.mpr h6⟩),
    if_neg (not_lt.mpr h1),
    if_neg (not_or.mpr ⟨not_lt.mpr h3, not_lt.mpr h4⟩)]
  by_cases hA : maxA ≤ minA <;> by_cases hB : low ≤ crit <;>
    by_cases hC : debug = true ∧ env = ConfigEnv.production <;>
      simp [hA, hB, hC]

/-- C9 witness: debug in production fails construction; the same in-bound
fields in development succeed. -/
theorem c9_config_validation_witness :
    configConstructionFails .production true 30 400 20 10 = true ∧
    configConstructionFails .development false 30 400 20 10 = false := by
  constructor
  · exact (c9_config_validation .production true 30 400 20 10 (by norm_num)
      (by norm_num) (by norm_num) (by norm_num) (by norm_num) (by norm_num)).mpr
      (Or.inr (Or.inr ⟨rfl, rfl⟩))
  · have h := c9_config_validation .development false 30 400 20 10 (by norm_num)
      (by norm_num) (by norm_num) (by norm_num) (by norm_num) (by norm_num)
    cases hcf : configConstructionFails .development false 30 400 20 10 with
    | false => rfl
    | true =>
      exfalso
      rcases h.mp hcf with h' | h' | h'
      · norm_num at h'
      · norm_num at h'
      · exact absurd h'.2 (by simp)

/-- C8: with battery 80, status available, a truthy location and the four
randomized factors fixed at 80, the weighted total is exactly 86, in the
"Highly Recommended" band with confidence 0.95. -/
theorem c8_drone_score_weights (d : DroneRec)
    (hb : d.battery_percentage = 80) (hs : d.status = .available)
    (hlat : pyTruthy d.latitude = true) (hlon : pyTruthy d.longitude = true) :
    scoreDroneForMission 80 80 80 80 d =
      { total_score := 86, recommendation := "Highly Recommended",
        confidence := 0.95 } := by
  simp only [scoreDroneForMission, hb, hs, hlat, hlon, if_pos rfl, Bool.and_self, if_true]
  norm_num [pyRound2, roundHalfEven]

/-- C8 witness: the concrete available drone with battery 80 and a known
location. -/
theorem c8_drone_score_weights_witness :
    scoreDroneForMission 80 80 80 80 aiDrone =
      { total_score := 86, recommendation := "Highly Recommended",
        confidence := 0.95 } :=
  c8_drone_score_weights aiDrone rfl rfl (by decide) (by decide)

/-- C2 (partly refuted by the code): five consecutive failures open a
default-settings breaker, a call while OPEN before the recovery timeout does
fail immediately without invoking the wrapped function, and a call after the
timeout is allowed through — but the immediate failure is a `TypeError`
(duplicate `retry_after` keyword inside `ExternalServiceError.__init__`), not
an `ExternalServiceError` carrying `retry_after`. -/
theorem c2_circuit_breaker_open_behaviour :
    (∀ t1 t2 t3 t4 t5 : ℚ,
      (cbRun defaultCircuitBreaker
        [(t1, false), (t2, false), (t3, false), (t4, false), (t5, false)]).state =
        .opened) ∧
    (∀ (cb : CircuitBreaker) (t now : ℚ) (s : Bool),
      cb.state = .opened → cb.last_failure_time = some t →
      now - t < cb.recovery_timeout →
        cbCall cb now s = (cb, .raisedOpenCircuit (.typeError
          "BaseApplicationError.__init__() got multiple values for keyword argument retry_after"))) ∧
    (∀ (cb : CircuitBreaker) (t now : ℚ) (s : Bool),
      cb.state = .opened → cb.last_failure_time = some t →
      cb.recovery_timeout ≤ now - t →
        (cbCall cb now s).2.invoked = true) := by
  refine ⟨fun t1 t2 t3 t4 t5 => ?_, fun cb t now s hst hlf hlt => ?_,
    fun cb t now s hst hlf hle => ?_⟩
  · norm_num [cbRun, cbCall, cbOnFailure, defaultCircuitBreaker]
  · simp [cbCall, hst, shouldAttemptReset, hlf, not_le.mpr hlt, externalServiceErrorNew]
  · cases s <;>
      simp [cbCall, hst, shouldAttemptReset, hlf, hle, CBOutcome.invoked,
        cbOnFailure, cbOnSuccess]

/-- C2 witness: failures at times 0..4 open the breaker; a call at time 10
(within the 60 s window) raises the `TypeError` without invoking the wrapped
function; a call at time 70 goes through. -/
theorem c2_circuit_breaker_open_behaviour_witness :
    (cbRun defaultCircuitBreaker
      [((0 : ℚ), false), (1, false), (2, false), (3, false), (4, false)]).state =
      .opened ∧
    cbCall cbOpen5 10 true = (cbOpen5, .raisedOpenCircuit (.typeError
      "BaseApplicationError.__init__() got multiple values for keyword argument retry_after")) ∧
    (cbCall cbOpen5 70 true).2.invoked = true :=
  ⟨c2_circuit_breaker_open_behaviour.1 0 1 2 3 4,
   c2_circuit_breaker_open_behaviour.2.1 cbOpen5 4 10 true rfl rfl
     (by norm_num [cbOpen5]),
   c2_circuit_breaker_open_behaviour.2.2 cbOpen5 4 70 true rfl rfl
     (by norm_num [cbOpen5])⟩

/-- C3: for every stored mission, starting when not planned, pausing when not
in-progress, resuming when not paused, and aborting when neither in-progress
nor paused each return 400 and leave the stored state (the whole database
snapshot) unchanged. -/
theorem c3_lifecycle_guards (db : ApiDb) (now : ℚ) (i : ℕ) (m : MissionRec)
    (r : Option String) (hfind : db.findMission i = some m) :
    (m.status ≠ .planned → startMissionEndpoint db now i = (400, db)) ∧
    (m.status ≠ .in_progress → pauseMissionEndpoint db i = (400, db)) ∧
    (m.status ≠ .paused → resumeMissionEndpoint db i = (400, db)) ∧
    (m.status ≠ .in_progress ∧ m.status ≠ .paused →
      abortMissionEndpoint db now i r = (400, db)) := by
  refine ⟨fun h => ?_, fun h => ?_, fun h => ?_, fun h => ?_⟩
  · simp [startMissionEndpoint, hfind, h]
  · simp [pauseMissionEndpoint, hfind, h]
  · simp [resumeMissionEndpoint, hfind, h]
  · simp [abortMissionEndpoint, hfind, h.1, h.2]

/-- C3 witness: a completed mission is rejected with 400 by all four
lifecycle endpoints, the database unchanged. -/
theorem c3_lifecycle_guards_witness :
    startMissionEndpoint doneDb 0 3 = (400, doneDb) ∧
    pauseMissionEndpoint doneDb 3 = (400, doneDb) ∧
    resumeMissionEndpoint doneDb 3 = (400, doneDb) ∧
    abortMissionEndpoint doneDb 0 3 none = (400, doneDb) :=
  ⟨(c3_lifecycle_guards doneDb 0 3 doneMission none (by decide)).1 (by decide),
   (c3_lifecycle_guards doneDb 0 3 doneMission none (by decide)).2.1 (by decide),
   (c3_lifecycle_guards doneDb 0 3 doneMission none (by decide)).2.2.1 (by decide),
   (c3_lifecycle_guards doneDb 0 3 doneMission none (by decide)).2.2.2
     ⟨by decide, by decide⟩⟩

/-- C10: whenever the inputs validate, the polygon parses, and the selected
pattern produces zero survey points, `generate_waypoints` returns the empty
list — no takeoff or landing waypoint is added and no exception is raised. -/
theorem c10_empty_pattern_empty_result (mode : GenMode)
    (dist : ℚ → ℚ → ℚ → ℚ → ℚ) (cosMeanLat : ℚ)
    (g : GeoJson) (alt ov : ℚ) (pat : String) (lso : Option ℚ) (cl : Bool)
    (poly : ParsedPoly)
    (hv : validateInputs (some g) alt ov pat = none)
    (hp : parseSurveyArea mode g = .ok poly)
    (hg : genPattern mode cosMeanLat poly alt ov pat lso cl = .ok []) :
    generateWaypoints mode dist cosMeanLat (some g) alt ov pat lso cl = .ok [] := by
  simp [generateWaypoints, hv, hp, hg, Except.bind, Except.map, addTakeoffLanding,
    calculateTiming]

/-- C10 witness: on the thin rectangle (bounding box lower than one lattice
row) the fallback crosshatch yields zero survey points, and the full
`generate_waypoints` call returns the empty list without failing. -/
theorem c10_empty_pattern_empty_result_witness :
    genPattern .simpleMode 1 thinPoly 50 60 "crosshatch" none true = .ok [] ∧
    generateWaypoints .simpleMode zeroDist 1 (some thinGeo) 50 60 "crosshatch"
      none true = .ok [] := by
  have hv : validateInputs (some thinGeo) 50 60 "crosshatch" = none := by decide
  have hp : parseSurveyArea .simpleMode thinGeo = .ok thinPoly := by
    norm_num [parseSurveyArea, thinGeo, thinPoly, thinRing, calculateBounds,
      min_def, max_def]
  have hg : genPattern .simpleMode 1 thinPoly 50 60 "crosshatch" none true = .ok [] := by
    norm_num [genPattern, generateCrosshatchPattern, generateCrosshatchSimple, thinPoly,
      thinRing, calculateLineSpacing, loopFuel, chSimpleRows, max_def]
  exact ⟨hg, c10_empty_pattern_empty_result _ zeroDist _ _ _ _ _ _ _ _ hv hp hg⟩

end DroneSurvey
